import Mathlib

/-!
# recipe_bot — verification of the specified behaviour against `bot.py`

A shallow embedding of the claim-relevant parts of `src/bot.py`:

* `escape_markdown_v2` (bot.py 47-50) — MarkdownV2 escaping;
* `parse_recipe_blocks` (bot.py 53-79) — the regex-based recipe-block parser,
  embedded as executable character-list scanners with the exact semantics of
  the Python regexes used there (leftmost match, lazy capture, alternation
  order, `str.strip` with character sets);
* `format_recipe_markdown` (bot.py 81-108) — the MarkdownV2 renderer;
* `_sync_download` (bot.py 291-372) and `handle_url` (bot.py 505-684) — the
  download pipeline, embedded over an explicit file-system state (a list of
  existing file paths); network and chat-transport effects are represented by
  oracles/outcome parameters, file-system effects are explicit.

Python strings are modelled as `String`/`List Char`; SQLite quota state is
passed as the value `used` that `get_quota_usage` returns for the requester.
-/

namespace RecipeBot

/- ======================= Markdown escaping (bot.py 47-50) ==================== -/

/-- The reserved-character set of `escape_markdown_v2`:
Python `chars = r"\_*[]()~`>#+-=|{}.!"` (bot.py 49), in source order. -/
def escChars : List Char := "\\_*[]()~`>#+-=|\x7b\x7d.!".toList

/-- `c in chars` test used by `escape_markdown_v2`. -/
def reservedChar (c : Char) : Bool := escChars.contains c

/-- Character-list form of `escape_markdown_v2` (bot.py 50):
`''.join(f"\\{c}" if c in chars else c for c in text)`. -/
def escapeL : List Char → List Char
  | [] => []
  | c :: rest => if reservedChar c then '\\' :: c :: escapeL rest else c :: escapeL rest

/-- `escape_markdown_v2` (bot.py 47-50). -/
def escape_markdown_v2 (text : String) : String := ⟨escapeL text.data⟩

/- ================= Python string helpers used by the parser ================== -/

/-- Python `str.strip()` whitespace set (ASCII part; the inputs involved use
only spaces and newlines). -/
def isPySpace (c : Char) : Bool :=
  c = ' ' || c = '\t' || c = '\n' || c = '\r' || c = '\x0b' || c = '\x0c'

/-- Strip characters satisfying `p` from both ends of a character list
(Python `str.strip(chars)`). -/
def stripCharsL (p : Char → Bool) (l : List Char) : List Char :=
  ((l.dropWhile p).reverse.dropWhile p).reverse

/-- Python `s.strip()` (default whitespace strip). -/
def pyStrip (s : String) : String := ⟨stripCharsL isPySpace s.data⟩

/-- Python `s.strip(set)` for an explicit character set. -/
def pyStripSet (set : List Char) (s : String) : String :=
  ⟨stripCharsL (fun c => set.contains c) s.data⟩

/-- Python `"\n".join(lines)` (bot.py 108). -/
def pyJoinNL : List String → String
  | [] => ""
  | [a] => a
  | a :: b :: rest => a ++ "\n" ++ pyJoinNL (b :: rest)

/-- Python `s.split('\n')` on character lists: split at every newline, keeping
empty pieces (`"".split('\n') == [""]`, `"a\n".split('\n') == ["a", ""]`). -/
def splitNL : List Char → List (List Char)
  | [] => [[]]
  | c :: t =>
    if c = '\n' then [] :: splitNL t
    else
      match splitNL t with
      | [] => [[c]]
      | l :: ls => (c :: l) :: ls

/-- Python `s.split('\n')` on strings. -/
def pySplitNL (s : String) : List String := (splitNL s.data).map fun l => ⟨l⟩

/- =================== parse_recipe_blocks (bot.py 53-79) ===================== -/

/-- The canonical recipe record built by `parse_recipe_blocks` (bot.py 55-60). -/
structure RecipeBlocks where
  title : String
  ingredients : List String
  steps : List String
  extra : String
deriving DecidableEq, Repr

/-- Match a header word whose first letter is case-flexible (the regex class
`[Xx]`): if `s` starts with `up`/`lo` followed by `rest`, return what follows. -/
def matchHeader (up lo : Char) (rest : List Char) (s : List Char) : Option (List Char) :=
  match s with
  | [] => none
  | c :: t => if (c = up || c = lo) && rest.isPrefixOf t then some (t.drop rest.length) else none

/-- Consume the regex tail `\:?\**\n` after a section-header word: an optional
colon, any run of `*`, then a required newline.  (The three pieces cannot
overlap, so the deterministic reading is exactly the regex's behaviour.) -/
def afterColonStarsNL (s : List Char) : Option (List Char) :=
  let s1 := match s with
    | ':' :: t => t
    | _ => s
  let s2 := s1.dropWhile (fun c => c = '*')
  match s2 with
  | '\n' :: t => some t
  | _ => none

/-- After one `[\n\d]` class character, scan for the closing `\.` of
`[\n\d]+\.`: further class characters may intervene. -/
def nlDigitsDotAux : List Char → Bool
  | [] => false
  | c :: t => if c = '.' then true else if c = '\n' || c.isDigit then nlDigitsDotAux t else false

/-- Does `[\n\d]+\.` match at the head of `s`? -/
def nlDigitsDot : List Char → Bool
  | [] => false
  | c :: t => (c = '\n' || c.isDigit) && nlDigitsDotAux t

/-- Terminator group of the ingredients regex (bot.py 66):
`(\n[Пп]риг|[\n\d]+\.)` matching at the head of `s`. -/
def ingrTerm (s : List Char) : Bool :=
  (match s with
   | '\n' :: c :: t => (c = 'П' || c = 'п') && "риг".data.isPrefixOf t
   | _ => false)
  || nlDigitsDot s

/-- Terminator group of the steps regex (bot.py 71):
`(\n[Дд]ополнительно|$)` matching at the head of `s` (`$` without
`re.MULTILINE` matches at the very end or just before a final newline). -/
def stepsTerm (s : List Char) : Bool :=
  (match s with
   | '\n' :: c :: t => (c = 'Д' || c = 'д') && "ополнительно".data.isPrefixOf t
   | _ => false)
  || s = [] || s = ['\n']

/-- Lazy-capture loop: having captured `acc` (reversed, non-empty), keep
extending one character at a time until `term` matches at the remainder —
the semantics of `(.+?)` (with `re.DOTALL`) followed by a terminator group. -/
def lazyFrom (term : List Char → Bool) (acc : List Char) : List Char → Option (List Char)
  | [] => if term [] then some acc.reverse else none
  | d :: t => if term (d :: t) then some acc.reverse else lazyFrom term (d :: acc) t

/-- `(.+?)` followed by a terminator: capture at least one character, then the
shortest extension after which `term` matches. -/
def lazyCapture (term : List Char → Bool) : List Char → Option (List Char)
  | [] => none
  | c :: t => lazyFrom term [c] t

/-- `re.search` start-position scan: try `f` at every suffix, leftmost first. -/
def searchL {α : Type} (f : List Char → Option α) : List Char → Option α
  | [] => f []
  | c :: t =>
    match f (c :: t) with
    | some r => some r
    | none => searchL f t

/-- One attempt of the ingredients regex
`[Ии]нгредиенты\:?\**\n(.+?)(\n[Пп]риг|[\n\d]+\.)` at a fixed start position. -/
def ingrMatch (s : List Char) : Option (List Char) :=
  match matchHeader 'И' 'и' "нгредиенты".data s with
  | none => none
  | some r =>
    match afterColonStarsNL r with
    | none => none
    | some body => lazyCapture ingrTerm body

/-- One attempt of the steps regex
`[Пп]риготовление\:?\**\n(.+?)(\n[Дд]ополнительно|$)` at a fixed start position. -/
def stepsMatch (s : List Char) : Option (List Char) :=
  match matchHeader 'П' 'п' "риготовление".data s with
  | none => none
  | some r =>
    match afterColonStarsNL r with
    | none => none
    | some body => lazyCapture stepsTerm body

/-- One attempt of the extra regex `[Дд]ополнительно\:?\**\n(.+)` at a fixed
start position (`(.+)` with `re.DOTALL` greedily captures the whole rest,
requiring at least one character). -/
def extraMatch (s : List Char) : Option (List Char) :=
  match matchHeader 'Д' 'д' "ополнительно".data s with
  | none => none
  | some r =>
    match afterColonStarsNL r with
    | none => none
    | some body => if body = [] then none else some body

/-- The character class excluded from the title capture group (bot.py 62):
`[^\n\*\_\-\:\[\]\(\)\~\`\>\#\+\=\|\{\}\.\!]*`. -/
def titleExcluded : List Char := "\n*_-:[]()~`>#+=|\x7b\x7d.!".toList

/-- One attempt of the title regex
`[Рр]ецепт\:?\s*([^\n\*\_\-\:\[\]\(\)\~\`\>\#\+\=\|\{\}\.\!]*)` at a fixed
start position: optional colon, greedy whitespace, then the greedy capture of
characters outside the excluded class (possibly empty, so this attempt always
succeeds once the header word matched). -/
def titleMatch (s : List Char) : Option (List Char) :=
  match matchHeader 'Р' 'р' "ецепт".data s with
  | none => none
  | some r =>
    let r1 := match r with
      | ':' :: t => t
      | _ => r
    let r2 := r1.dropWhile isPySpace
    some (r2.takeWhile (fun c => !(titleExcluded.contains c)))

/-- Strip set applied to the title capture (bot.py 64). -/
def titleStripSet : List Char := " *_-:[]()~`>#+=|\x7b\x7d.!".toList

/-- Strip set applied to each ingredient line (bot.py 68). -/
def ingrStripSet : List Char := "•-*_[]()~`>#+=|\x7b\x7d.!".toList

/-- Strip set applied to each step line (bot.py 73). -/
def stepsStripSet : List Char := "0123456789. *_-:[]()~`>#+=|\x7b\x7d.!".toList

/-- Ingredient-lines comprehension (bot.py 68):
`[i.strip('•-*_[]()~`>#+=|{}.!').strip() for i in group(1).strip().split('\n') if i.strip()]`. -/
def ingrLines (cap : String) : List String :=
  (pySplitNL (pyStrip cap)).filterMap fun i =>
    if pyStrip i = "" then none else some (pyStrip (pyStripSet ingrStripSet i))

/-- Step-lines comprehension (bot.py 73):
`[s.strip("0123456789. *_-:[]()~`>#+=|{}.!").strip() for s in group(1).split('\n') if s.strip()]`. -/
def stepsLines (cap : String) : List String :=
  (pySplitNL cap).filterMap fun s =>
    if pyStrip s = "" then none else some (pyStrip (pyStripSet stepsStripSet s))

/-- `parse_recipe_blocks` (bot.py 53-79). -/
def parse_recipe_blocks (text : String) : RecipeBlocks :=
  let title :=
    match searchL titleMatch text.data with
    | some cap => pyStripSet titleStripSet ⟨cap⟩
    | none => ""
  let ingredients :=
    match searchL ingrMatch text.data with
    | some cap => ingrLines ⟨cap⟩
    | none => []
  let steps :=
    match searchL stepsMatch text.data with
    | some cap => stepsLines ⟨cap⟩
    | none => []
  let extra :=
    match searchL extraMatch text.data with
    | some cap => pyStrip ⟨cap⟩
    | none => ""
  ⟨title, ingredients, steps, extra⟩

/- ================== format_recipe_markdown (bot.py 81-108) =================== -/

/-- Python `str.upper()` on the alphabets this program handles (ASCII and
Russian Cyrillic; other characters are unchanged, as in Python for
non-letters). -/
def pyUpperChar (c : Char) : Char :=
  if 'a' ≤ c ∧ c ≤ 'z' then Char.ofNat (c.toNat - 32)
  else if 'а' ≤ c ∧ c ≤ 'я' then Char.ofNat (c.toNat - 32)
  else if c = 'ё' then 'Ё'
  else c

/-- Python `s.upper()`. -/
def pyUpper (s : String) : String := ⟨s.data.map pyUpperChar⟩

/-- The numbered-step loop (bot.py 96-97):
`for idx, s in enumerate(recipe['steps'], 1): lines.append(f"{idx}. {escape_markdown_v2(s)}")`,
generalised over the per-step text function so the escaped renderer and the
spec's pre-escaping plain form share one loop. -/
def numberStepsWith (f : String → String) (idx : Nat) : List String → List String
  | [] => []
  | s :: rest => (toString idx ++ ". " ++ f s) :: numberStepsWith f (idx + 1) rest

/-- The `lines` list built by `format_recipe_markdown` (bot.py 82-107),
generalised over the text-fragment transformation `f` (the source applies
`escape_markdown_v2`; the spec's "rendered plain-text form (before escaping)"
is the same template with `f = id`).  Structural markup (`🍲 *…*` bold
markers, `•` bullets, `{idx}. ` numbering, `[Оригинал](url)` link syntax,
`_____` separators) is inserted verbatim, outside `f`. -/
def formatLinesWith (f : String → String) (recipe : RecipeBlocks)
    (original_url duration : String) : List String :=
  (if recipe.title ≠ "" then ["🍲 *" ++ f (pyUpper recipe.title) ++ "*"] else [])
  ++ (if recipe.ingredients ≠ [] then
        "\n🛒 *Ингредиенты*" :: recipe.ingredients.map (fun i => "• " ++ f i) else [])
  ++ (if recipe.ingredients ≠ [] then ["\n_____"] else [])
  ++ (if recipe.steps ≠ [] then
        "👨‍🍳 *Шаги приготовления*" :: (numberStepsWith f 1 recipe.steps ++ ["\n_____"]) else [])
  ++ (if recipe.extra ≠ "" then
        ["💡 *Дополнительно*\n" ++ f recipe.extra ++ "\n\n_____"] else [])
  ++ (if original_url ≠ "" then
        [if duration ≠ "" then
           "[Оригинал](" ++ original_url ++ ")" ++ " " ++ f ("(" ++ duration ++ ")")
         else "[Оригинал](" ++ original_url ++ ")"] else [])

/-- The `lines` list of `format_recipe_markdown` exactly as in the source
(with `escape_markdown_v2` applied to every user/model text fragment). -/
def formatRecipeMarkdownLines (recipe : RecipeBlocks) (original_url duration : String) :
    List String :=
  formatLinesWith escape_markdown_v2 recipe original_url duration

/-- `format_recipe_markdown` (bot.py 81-108): `"\n".join(lines)`. -/
def format_recipe_markdown (recipe : RecipeBlocks) (original_url duration : String) : String :=
  pyJoinNL (formatRecipeMarkdownLines recipe original_url duration)

/-- Modelled from the spec: the "rendered plain-text form (before escaping)"
of §8 — `format_recipe_markdown`'s template with the escaping omitted. -/
def formatRecipePlain (recipe : RecipeBlocks) (original_url duration : String) : String :=
  pyJoinNL (formatLinesWith id recipe original_url duration)

/- ============== Quota admission check (bot.py 156-161, 528-536) ============= -/

/-- The admission test of `handle_url` (bot.py 529-536): a request is allowed
unless `uid != OWNER_ID` and `get_quota_usage(uid) >= FREE_LIMIT`; `used` is
the value `get_quota_usage` returns (the `n` counter of the single `quota`
table — the store keeps no balance and no expiry date). -/
def quota_check_allowed (uid ownerId used freeLimit : Nat) : Bool :=
  uid == ownerId || used < freeLimit

/-- Modelled from the spec (§4.7), for comparison with the code's check:
"a request is allowed if the user is the configured unlimited-access identity,
OR `balance > 0`, OR `free_used < free_limit`". -/
def spec_check_allowed (isUnlimited : Bool) (balance free_used free_limit : Nat) : Bool :=
  isUnlimited || 0 < balance || free_used < free_limit

/- ============ Download pipeline with explicit file-system state ============= -/

/-- The local file system as the set of existing file paths. -/
abbrev FS := List String

/-- Is `p` a path inside directory `dir`? -/
def underDir (dir p : String) : Bool := (dir ++ "/").data.isPrefixOf p.data

/-- `shutil.rmtree(temp_dir, ignore_errors=True)` (bot.py 370): every path
under the directory disappears. -/
def rmtreeF (dir : String) (fs : FS) : FS := fs.filter fun p => !underDir dir p

/-- `path.unlink(missing_ok=True)` (bot.py 612, 661). -/
def unlinkF (p : String) (fs : FS) : FS := fs.filter fun q => q ≠ p

/-- `info` dictionary fields consumed by the claims (duration is read only
for display strings in `handle_url`). -/
structure VideoInfo where
  duration : Nat
deriving DecidableEq, Repr

/-- What the yt-dlp session of `_sync_download` (bot.py 303-362) does:
either the extraction fails (DownloadError / unexpected exception / `info`
falsy — bot.py 309-311, 342-362), or it succeeds, having written the media
file `fname` into the temp directory; `written` are any further files the
session wrote there (fragments, partial output) before finishing. -/
inductive DlOutcome where
  | fail (written : List String)
  | success (fname : String) (written : List String) (info : VideoInfo)
deriving DecidableEq, Repr

/-- A download request's environment: the fresh directory `tempfile.mkdtemp()`
creates (bot.py 294) and the session outcome. -/
structure DlEnv where
  tempDir : String
  outcome : DlOutcome
deriving DecidableEq, Repr

/-- `_sync_download` (bot.py 291-372): a temp directory is created, the
yt-dlp session runs inside the `try`, and the `finally` block removes the
whole temp directory with `shutil.rmtree` before the function returns — on
the success path included.  (The cookie temp files `get_ydl_opts` may create
live outside the asset temp directory and are not part of the asset model.) -/
def _sync_download (env : DlEnv) (fs : FS) : Option String × Option VideoInfo × FS :=
  match env.outcome with
  | .fail written =>
    -- bot.py 309-311, 340, 342-362: every failure branch returns None, None;
    -- finally (367-372) removes the temp directory and everything in it
    let fs1 := written.map (fun w => env.tempDir ++ "/" ++ w) ++ fs
    (none, none, rmtreeF env.tempDir fs1)
  | .success fname written info =>
    -- bot.py 317-336: the downloaded file is found and returned together
    -- with info; finally (367-372) still removes the temp directory
    let p := env.tempDir ++ "/" ++ fname
    let fs1 := p :: written.map (fun w => env.tempDir ++ "/" ++ w) ++ fs
    (some p, some info, rmtreeF env.tempDir fs1)

/-- `download_video` (bot.py 286-289): runs `_sync_download` in an executor. -/
def download_video (env : DlEnv) (fs : FS) : Option String × Option VideoInfo × FS :=
  _sync_download env fs

/-- Which user-visible turn `handle_url` ends on. -/
inductive Outcome where
  | unsupportedMsg  -- bot.py 513-526
  | quotaMsg        -- bot.py 529-536
  | dlFailedMsg     -- bot.py 569-590
  | noInfoMsg       -- bot.py 592-603
  | tooLargeMsg     -- bot.py 606-618
  | crashedMsg      -- bot.py 663-684 (except handler)
  | delivered       -- bot.py 620-661
deriving DecidableEq, Repr

/-- Observable result of one `handle_url` run. -/
structure RunResult where
  outcome : Outcome
  fetchCalls : Nat
  videoSent : Bool
  quotaIncremented : Bool
  fs : FS
deriving DecidableEq, Repr

/-- `handle_url` (bot.py 505-684) over the explicit file-system state.
Chat-transport replies carry no file-system effect and are reflected in
`outcome`; `supported` is the value of `is_supported_url(url)` (bot.py 513),
`used` the value of `get_quota_usage(uid)` (bot.py 530), `fileSize` the
`stat().st_size` oracle (bot.py 606), and `crashAfterSend` injects an
exception after `reply_video` (the latest possible abnormal exit, reaching
the `except` handler of bot.py 663 with the cleanup `unlink` of 661 skipped). -/
def handle_url (uid ownerId used freeLimit : Nat) (supported : Bool)
    (env : DlEnv) (fileSize : String → Nat) (crashAfterSend : Bool) (fs : FS) : RunResult :=
  if supported = false then
    ⟨.unsupportedMsg, 0, false, false, fs⟩                       -- bot.py 513-526
  else if uid ≠ ownerId ∧ freeLimit ≤ used then
    ⟨.quotaMsg, 0, false, false, fs⟩                             -- bot.py 529-536
  else
    match download_video env fs with                              -- bot.py 557
    | (none, _, fs1) => ⟨.dlFailedMsg, 1, false, false, fs1⟩     -- bot.py 569-590
    | (some p, infoOpt, fs1) =>
      if p ∉ fs1 then ⟨.dlFailedMsg, 1, false, false, fs1⟩       -- bot.py 569 (.exists())
      else
        match infoOpt with
        | none => ⟨.noInfoMsg, 1, false, false, fs1⟩             -- bot.py 592-603
        | some _ =>
          if 50 * 1024 * 1024 < fileSize p then
            ⟨.tooLargeMsg, 1, false, false, unlinkF p fs1⟩       -- bot.py 606-618
          else if crashAfterSend = true then
            ⟨.crashedMsg, 1, true, false, fs1⟩                   -- bot.py 663-684
          else
            ⟨.delivered, 1, true, decide (uid ≠ ownerId), unlinkF p fs1⟩  -- bot.py 620-661

/- ========== Concurrency Guard — spec-modelled (spec §4.8, §8) =============== -/

/-- Modelled from the spec: `src/` contains no Concurrency Guard (no lock is
acquired or released anywhere in `bot.py`); the per-requester state machine
`Idle → Locked(started_at) → Idle` of §4.8. -/
inductive GuardState where
  | idle : GuardState
  | locked : Nat → GuardState
deriving DecidableEq, Repr

/-- Modelled from the spec: result of `acquire(requester_id, timeout)`. -/
inductive AcquireResult where
  | token : GuardState → AcquireResult
  | busy : AcquireResult
deriving DecidableEq, Repr

/-- Modelled from the spec (§4.8): a new `acquire` while `Locked` fails fast
with `Busy` under the staleness threshold and reclaims a stale lock above it. -/
def guardAcquire (now timeout : Nat) : GuardState → AcquireResult
  | .idle => .token (.locked now)
  | .locked startedAt => if timeout < now - startedAt then .token (.locked now) else .busy

/-- Modelled from the spec (§4.8): `release` is idempotent. -/
def guardRelease : GuardState → GuardState := fun _ => .idle

/-- Events of a guarded pipeline run. -/
inductive PipeEv where
  | acq
  | rel
  | stage (i : Nat)
deriving DecidableEq, Repr, BEq

/-- Modelled from the spec (§2, §7): the guarded section runs the pipeline
stages strictly sequentially; each stage may fail (`false` injects a failure);
the first failing stage aborts the rest, and *every* exit path — the success
exit and each abort — performs the `release`. -/
def runStagesEv (i : Nat) : List Bool → List PipeEv
  | [] => [.rel]
  | ok :: rest => if ok then .stage i :: runStagesEv (i + 1) rest else [.stage i, .rel]

/-- Modelled from the spec (§4.8, §8): one request against the guard — on
`Busy` no resources are allocated and no stage runs; on a successful acquire
the stages run and release is reached on every exit path. -/
def runGuarded (g : GuardState) (now timeout : Nat) (stages : List Bool) : List PipeEv :=
  match guardAcquire now timeout g with
  | .busy => []
  | .token _ => .acq :: runStagesEv 0 stages

/- ============================ Helper lemmas ================================= -/

theorem data_append (s t : String) : (s ++ t).data = s.data ++ t.data := by
  cases s; cases t; rfl

theorem isPrefixOf_append_self (l t : List Char) : l.isPrefixOf (l ++ t) = true := by
  induction l with
  | nil => simp [List.isPrefixOf]
  | cons a r ih => simp [List.isPrefixOf, ih]

theorem underDir_of_append (dir f : String) : underDir dir (dir ++ "/" ++ f) = true := by
  have h : (dir ++ "/" ++ f).data = (dir ++ "/").data ++ f.data := data_append _ _
  rw [underDir, h]
  exact isPrefixOf_append_self _ _

theorem not_mem_rmtreeF {dir q : String} (h : underDir dir q = true) (fs : FS) :
    q ∉ rmtreeF dir fs := by
  intro hmem
  rcases List.mem_filter.mp hmem with ⟨-, hpred⟩
  simp [h] at hpred

theorem not_mem_unlinkF {q : String} (p : String) {fs : FS} (h : q ∉ fs) :
    q ∉ unlinkF p fs := by
  intro hmem
  exact h (List.mem_filter.mp hmem).1

/- =============================== Claim C2 =================================== -/

/-- C2: whenever `_sync_download` returns a non-`None` video path, that path
lies inside the per-request temp directory whose removal the function's own
`finally` block performs before returning, so the path no longer exists in the
file system handed back to the caller. -/
theorem sync_download_returns_deleted_path (env : DlEnv) (fs : FS)
    (p : String) (infoOpt : Option VideoInfo) (fs' : FS)
    (h : _sync_download env fs = (some p, infoOpt, fs')) :
    underDir env.tempDir p = true ∧ p ∉ fs' := by
  obtain ⟨dir, outc⟩ := env
  cases outc with
  | fail written => simp [_sync_download] at h
  | success fname written info =>
    simp only [_sync_download] at h
    rw [Prod.mk.injEq, Prod.mk.injEq] at h
    obtain ⟨h1, -, h3⟩ := h
    have hp : p = dir ++ "/" ++ fname := (Option.some.injEq _ _).mp h1 |>.symm
    subst hp
    subst h3
    exact ⟨underDir_of_append dir fname, not_mem_rmtreeF (underDir_of_append dir fname) _⟩

/-- C2 witness: a concrete successful download returns the path
`"tmp/v.mp4"`, which is under the temp directory and absent from the returned
file system. -/
theorem sync_download_returns_deleted_path_witness :
    underDir "tmp" "tmp/v.mp4" = true ∧
      "tmp/v.mp4" ∉ (_sync_download ⟨"tmp", .success "v.mp4" [] ⟨7⟩⟩ ["keep.txt"]).2.2 :=
  sync_download_returns_deleted_path ⟨"tmp", .success "v.mp4" [] ⟨7⟩⟩ ["keep.txt"]
    "tmp/v.mp4" (some ⟨7⟩) ["keep.txt"] (by decide)

/- =============================== Claim C1 =================================== -/

/-- C1: on every exit path of `handle_url` — success, every error branch, the
50 MB rejection, and an injected abnormal termination after the video send —
no file under the request's temp directory survives pipeline handling
(the `finally` of `_sync_download` plus the `unlink` calls of `handle_url`
leave nothing behind), given that the temp directory was fresh. -/
theorem handle_url_no_temp_file_survives (uid ownerId used freeLimit : Nat)
    (supported : Bool) (env : DlEnv) (fileSize : String → Nat) (crashAfterSend : Bool)
    (fs : FS) (hfresh : ∀ q ∈ fs, underDir env.tempDir q = false) :
    ∀ q, underDir env.tempDir q = true →
      q ∉ (handle_url uid ownerId used freeLimit supported env fileSize crashAfterSend fs).fs := by
  intro q hq
  obtain ⟨dir, outc⟩ := env
  have hfs : q ∉ fs := fun hmem => by simp [hfresh q hmem] at hq
  have hrm : ∀ l, q ∉ rmtreeF dir l := fun l => not_mem_rmtreeF hq l
  cases outc with
  | fail written =>
    simp only [handle_url, download_video, _sync_download]
    split_ifs <;> first
      | exact hfs
      | exact hrm _
  | success fname written info =>
    simp only [handle_url, download_video, _sync_download]
    split_ifs <;> first
      | exact hfs
      | exact hrm _
      | exact not_mem_unlinkF _ (hrm _)

/-- C1 witness: with a fresh temp directory `"tmp"` and a successful
download, the downloaded asset `"tmp/v.mp4"` is gone from the final file
system. -/
theorem handle_url_no_temp_file_survives_witness :
    (∀ q ∈ (["keep.txt"] : FS), underDir "tmp" q = false) ∧
      "tmp/v.mp4" ∉ (handle_url 1 0 0 6 true ⟨"tmp", .success "v.mp4" [] ⟨9⟩⟩
        (fun _ => 1) false ["keep.txt"]).fs :=
  ⟨by decide,
   handle_url_no_temp_file_survives 1 0 0 6 true ⟨"tmp", .success "v.mp4" [] ⟨9⟩⟩
     (fun _ => 1) false ["keep.txt"] (by decide) "tmp/v.mp4" (by decide)⟩

/- =============================== Claim C3 =================================== -/

/-- C3 counterexample: the code's admission check tracks only the free-tier
counter `n`; a (spec-level) user with positive unexpired balance `3` whose
free tier is exhausted (`free_used = free_limit = 6`, `uid = 1 ≠ OWNER_ID = 0`)
is allowed by the spec's formula but denied by the code, so the claimed
equivalence fails at this concrete input. -/
theorem quota_check_balance_counterexample :
    ¬ (quota_check_allowed 1 0 6 6 = spec_check_allowed false 3 6 6) := by decide

/-- C3 amended: the code's check has no balance clause — a request is allowed
exactly when the user is the owner or `free_used < free_limit`; equivalently
the check agrees with the spec's formula with `balance` pinned to `0`, and it
returns false exactly when the user is not the owner and the free tier is
exhausted (which is precisely the denial condition inlined in `handle_url`). -/
theorem quota_check_characterization (uid ownerId used freeLimit : Nat) :
    (quota_check_allowed uid ownerId used freeLimit
        = spec_check_allowed (uid == ownerId) 0 used freeLimit)
    ∧ (quota_check_allowed uid ownerId used freeLimit = false
        ↔ uid ≠ ownerId ∧ freeLimit ≤ used)
    ∧ (¬(uid ≠ ownerId ∧ freeLimit ≤ used)
        ↔ quota_check_allowed uid ownerId used freeLimit = true) := by
  refine ⟨?_, ?_, ?_⟩ <;>
    · simp [quota_check_allowed, spec_check_allowed]
      try omega

/- =============================== Claim C4 =================================== -/

theorem beq_rel_acq : (PipeEv.rel == PipeEv.acq) = false := rfl

theorem beq_acq_rel : (PipeEv.acq == PipeEv.rel) = false := rfl

theorem beq_rel_rel : (PipeEv.rel == PipeEv.rel) = true := rfl

theorem beq_acq_acq : (PipeEv.acq == PipeEv.acq) = true := rfl

theorem beq_stage_rel (i : Nat) : (PipeEv.stage i == PipeEv.rel) = false := rfl

theorem beq_stage_acq (i : Nat) : (PipeEv.stage i == PipeEv.acq) = false := rfl

theorem count_rel_runStagesEv (stages : List Bool) :
    ∀ i, (runStagesEv i stages).count PipeEv.rel = 1 := by
  induction stages with
  | nil => intro i; rfl
  | cons ok rest ih =>
    intro i
    by_cases h : ok = true
    · simp [runStagesEv, h, ih (i + 1), List.count_cons, beq_stage_rel]
    · simp [runStagesEv, h, List.count_cons, beq_stage_rel, beq_rel_rel]

theorem count_acq_runStagesEv (stages : List Bool) :
    ∀ i, (runStagesEv i stages).count PipeEv.acq = 0 := by
  induction stages with
  | nil => intro i; rfl
  | cons ok rest ih =>
    intro i
    by_cases h : ok = true
    · simp [runStagesEv, h, ih (i + 1), List.count_cons, beq_stage_acq]
    · simp [runStagesEv, h, List.count_cons, beq_stage_acq, beq_rel_acq]

/-- C4 (spec-modelled: `src/bot.py` contains no Concurrency Guard, so the
guard and the guarded pipeline skeleton are modelled from spec §4.8/§2): for
every guard state, clock, staleness timeout and every injected stage-failure
pattern, the run performs exactly one `release` per successful `acquire`, and
never more than one acquire, so at most one live lock per requester exists. -/
theorem guard_release_once_per_acquire (g : GuardState) (now timeout : Nat)
    (stages : List Bool) :
    (runGuarded g now timeout stages).count PipeEv.rel
        = (runGuarded g now timeout stages).count PipeEv.acq
    ∧ (runGuarded g now timeout stages).count PipeEv.acq ≤ 1 := by
  unfold runGuarded
  cases guardAcquire now timeout g with
  | busy => simp
  | token g1 =>
    simp [List.count_cons, count_rel_runStagesEv, count_acq_runStagesEv,
      beq_rel_acq, beq_acq_rel, beq_rel_rel, beq_acq_acq]

/- =============================== Claim C6 =================================== -/

/-- C6 counterexample: a download whose `duration_seconds = 999` far exceeds
the spec's example ceiling (120 s) is *not* rejected with any duration error —
its handling is byte-for-byte identical to a 5-second video's, ending in the
generic download-failure branch (the asset file is gone either way, removed by
`_sync_download`'s own cleanup, not by a duration policy). -/
theorem duration_ceiling_not_enforced_cx :
    (handle_url 1 0 0 6 true ⟨"tmp", .success "v.mp4" [] ⟨999⟩⟩
        (fun _ => 100) false []).outcome = Outcome.dlFailedMsg
    ∧ handle_url 1 0 0 6 true ⟨"tmp", .success "v.mp4" [] ⟨999⟩⟩ (fun _ => 100) false []
        = handle_url 1 0 0 6 true ⟨"tmp", .success "v.mp4" [] ⟨5⟩⟩ (fun _ => 100) false []
    ∧ (handle_url 1 0 0 6 true ⟨"tmp", .success "v.mp4" [] ⟨999⟩⟩
        (fun _ => 100) false []).fs = [] := by
  refine ⟨by decide, by decide, by decide⟩

/-- C6 amended: `handle_url` enforces no duration ceiling at all — its result
is independent of `duration_seconds` (duration is read only for display
strings); the only explicit post-download rejection in the code is the 50 MB
file-size check, and the downloaded asset never survives in any case. -/
theorem handle_url_independent_of_duration (uid ownerId used freeLimit : Nat)
    (supported : Bool) (dir fname : String) (written : List String) (d d' : Nat)
    (fileSize : String → Nat) (crashAfterSend : Bool) (fs : FS) :
    handle_url uid ownerId used freeLimit supported ⟨dir, .success fname written ⟨d⟩⟩
        fileSize crashAfterSend fs
      = handle_url uid ownerId used freeLimit supported ⟨dir, .success fname written ⟨d'⟩⟩
        fileSize crashAfterSend fs := rfl

/- =============================== Claim C7 =================================== -/

/-- C7: a non-owner whose recorded usage has reached the free limit is turned
away by the quota check before `download_video` is ever invoked: the
fetch-call count of the whole `handle_url` run is zero (and the file system is
untouched). -/
theorem quota_exhausted_no_fetch (uid ownerId used freeLimit : Nat)
    (supported : Bool) (env : DlEnv) (fileSize : String → Nat) (crashAfterSend : Bool)
    (fs : FS) (h1 : uid ≠ ownerId) (h2 : freeLimit ≤ used) :
    (handle_url uid ownerId used freeLimit supported env fileSize crashAfterSend fs).fetchCalls
        = 0
    ∧ (handle_url uid ownerId used freeLimit supported env fileSize crashAfterSend fs).fs
        = fs := by
  cases supported with
  | false => exact ⟨rfl, rfl⟩
  | true => simp [handle_url, h1, h2]

/-- C7 witness: user `1` (owner is `0`) with `free_used = free_limit = 6`
makes a supported request — the fetch count stays zero. -/
theorem quota_exhausted_no_fetch_witness :
    ((1 : Nat) ≠ 0 ∧ (6 : Nat) ≤ 6)
    ∧ (handle_url 1 0 6 6 true ⟨"tmp", .fail []⟩ (fun _ => 0) false ["keep.txt"]).fetchCalls
        = 0 :=
  ⟨by decide,
   (quota_exhausted_no_fetch 1 0 6 6 true ⟨"tmp", .fail []⟩ (fun _ => 0) false ["keep.txt"]
     (by decide) (by decide)).1⟩

/- =============================== Claim C8 =================================== -/

/-- Property-side inverse of the escaping: consume one escape marker before
each escaped character (what a MarkdownV2 consumer does with `\x`). -/
def unescapeL : List Char → List Char
  | [] => []
  | [c] => [c]
  | c :: d :: r2 =>
    if c = '\\' then d :: unescapeL r2 else c :: unescapeL (d :: r2)

theorem reserved_backslash : reservedChar '\\' = true := rfl

/-- Every reserved character other than the escape marker itself sits right
after a backslash in `escapeL`'s output. -/
theorem escapeL_marker_before_reserved (s : List Char) :
    ∀ i c, (escapeL s).get? i = some c → reservedChar c = true → c ≠ '\\' →
      ∃ j, i = j + 1 ∧ (escapeL s).get? j = some '\\' := by
  induction s with
  | nil =>
    intro i c h hr hne
    simp [escapeL] at h
  | cons a t ih =>
    intro i c h hr hne
    by_cases ha : reservedChar a = true
    · rw [escapeL, if_pos ha] at h
      cases i with
      | zero =>
        rw [List.get?_cons_zero] at h
        exact absurd ((Option.some.injEq _ _ |>.mp h).symm) hne
      | succ i' =>
        cases i' with
        | zero => exact ⟨0, rfl, by rw [escapeL, if_pos ha, List.get?_cons_zero]⟩
        | succ n =>
          rw [List.get?_cons_succ, List.get?_cons_succ] at h
          obtain ⟨j, hj, hjg⟩ := ih n c h hr hne
          subst hj
          refine ⟨j + 1 + 1, rfl, ?_⟩
          rw [escapeL, if_pos ha, List.get?_cons_succ, List.get?_cons_succ]
          exact hjg
    · rw [escapeL, if_neg ha] at h
      cases i with
      | zero =>
        rw [List.get?_cons_zero] at h
        rw [Option.some.injEq] at h
        subst h
        exact absurd hr ha
      | succ n =>
        rw [List.get?_cons_succ] at h
        obtain ⟨j, hj, hjg⟩ := ih n c h hr hne
        subst hj
        refine ⟨j + 1, rfl, ?_⟩
        rw [escapeL, if_neg ha, List.get?_cons_succ]
        exact hjg

/-- Unescaping inverts the escaping: every reserved character of the input —
the backslash included — received exactly one escape marker. -/
theorem unescapeL_escapeL (s : List Char) : unescapeL (escapeL s) = s := by
  induction s with
  | nil => rfl
  | cons a t ih =>
    by_cases ha : reservedChar a = true
    · rw [escapeL, if_pos ha]
      simp [unescapeL, ih]
    · have hne : a ≠ '\\' := fun h => ha (h ▸ reserved_backslash)
      rw [escapeL, if_neg ha]
      cases het : escapeL t with
      | nil =>
        have ht : t = [] := by
          cases t with
          | nil => rfl
          | cons b u =>
            by_cases hb : reservedChar b = true <;> simp [escapeL, hb] at het
        subst ht
        simp [unescapeL]
      | cons d r2 =>
        rw [het] at ih
        simp [unescapeL, hne, ih]

/-- The numbered-step loop emits `"{i + |pre|}. {f s}"` for the step `s`
preceded by `pre` when numbering starts at `i`. -/
theorem mem_numberStepsWith (f : String → String) (s : String) :
    ∀ (pre : List String) (post : List String) (i : Nat),
      (toString (i + pre.length) ++ ". " ++ f s) ∈ numberStepsWith f i (pre ++ s :: post) := by
  intro pre
  induction pre with
  | nil => intro post i; simp [numberStepsWith]
  | cons a t ih =>
    intro post i
    have harith : i + (a :: t).length = (i + 1) + t.length := by
      simp only [List.length_cons]
      omega
    rw [harith]
    simp only [List.cons_append, numberStepsWith]
    exact List.mem_cons_of_mem _ (ih post (i + 1))

/-- Every line of the renderer's `lines` list occurs contiguously in the
joined output. -/
theorem pyJoinNL_occurrence (l : List String) :
    ∀ a ∈ l, ∃ pre post : List Char, (pyJoinNL l).data = pre ++ a.data ++ post := by
  induction l with
  | nil => intro a ha; simp at ha
  | cons x rest ih =>
    intro a ha
    cases rest with
    | nil =>
      have hax : a = x := by simpa using ha
      subst hax
      exact ⟨[], [], by simp [pyJoinNL]⟩
    | cons y rest' =>
      rcases List.mem_cons.mp ha with hax | ha'
      · subst hax
        refine ⟨[], '\n' :: (pyJoinNL (y :: rest')).data, ?_⟩
        rw [pyJoinNL, data_append, data_append]
        simp
      · obtain ⟨pre, post, hp⟩ := ih a ha'
        refine ⟨x.data ++ '\n' :: pre, post, ?_⟩
        rw [pyJoinNL, data_append, data_append, hp]
        simp

/-- C8: every reserved MarkdownV2 character occurring in a title, ingredient,
step or extra string is escaped in the rendered output — positionally, each
reserved character in an escaped fragment sits right after a backslash, and
unescaping recovers the fragment exactly (so the backslash case is covered
too) — while the renderer's own structural markup (the `🍲 *…*` bold title,
`•` bullets, `{idx}. ` numbering, the `[Оригинал](url)` link) is inserted
verbatim outside the escaping, and each such line occurs contiguously in the
joined output. -/
theorem renderer_escapes_text_not_markup :
    (∀ s : List Char, ∀ i : Nat, ∀ c : Char,
        (escapeL s).get? i = some c → reservedChar c = true → c ≠ '\\' →
        ∃ j, i = j + 1 ∧ (escapeL s).get? j = some '\\')
    ∧ (∀ s : List Char, unescapeL (escapeL s) = s)
    ∧ (∀ (r : RecipeBlocks) (url dur : String),
        (r.title ≠ "" →
          ("🍲 *" ++ escape_markdown_v2 (pyUpper r.title) ++ "*")
            ∈ formatRecipeMarkdownLines r url dur)
        ∧ (∀ i ∈ r.ingredients,
            ("• " ++ escape_markdown_v2 i) ∈ formatRecipeMarkdownLines r url dur)
        ∧ (∀ pre post s, r.steps = pre ++ s :: post →
            (toString (1 + pre.length) ++ ". " ++ escape_markdown_v2 s)
              ∈ formatRecipeMarkdownLines r url dur)
        ∧ (r.extra ≠ "" →
            ("💡 *Дополнительно*\n" ++ escape_markdown_v2 r.extra ++ "\n\n_____")
              ∈ formatRecipeMarkdownLines r url dur)
        ∧ (url ≠ "" → dur = "" →
            ("[Оригинал](" ++ url ++ ")") ∈ formatRecipeMarkdownLines r url dur)
        ∧ (∀ line ∈ formatRecipeMarkdownLines r url dur,
            ∃ pre post : List Char,
              (format_recipe_markdown r url dur).data = pre ++ line.data ++ post)) := by
  refine ⟨escapeL_marker_before_reserved, unescapeL_escapeL, ?_⟩
  intro r url dur
  refine ⟨?_, ?_, ?_, ?_, ?_, ?_⟩
  · intro ht
    simp [formatRecipeMarkdownLines, formatLinesWith, ht]
  · intro i hi
    have hne : r.ingredients ≠ [] := List.ne_nil_of_mem hi
    rw [formatRecipeMarkdownLines, formatLinesWith]
    refine List.mem_append_left _ (List.mem_append_left _ (List.mem_append_left _
      (List.mem_append_left _ (List.mem_append_right _ ?_))))
    rw [if_pos hne]
    exact List.mem_cons_of_mem _ (List.mem_map_of_mem _ hi)
  · intro pre post s hsteps
    have hne : r.steps ≠ [] := by
      rw [hsteps]
      simp
    rw [formatRecipeMarkdownLines, formatLinesWith]
    refine List.mem_append_left _ (List.mem_append_left _ (List.mem_append_right _ ?_))
    rw [if_pos hne, hsteps]
    exact List.mem_cons_of_mem _ (List.mem_append_left _ (mem_numberStepsWith _ s pre post 1))
  · intro he
    simp [formatRecipeMarkdownLines, formatLinesWith, he]
  · intro hu hd
    simp [formatRecipeMarkdownLines, formatLinesWith, hu, hd]
  · intro line hline
    exact pyJoinNL_occurrence _ line hline

/-- C8 witness: concrete checks — the `*` in `escapeL "a*b"` is preceded by a
backslash; in a rendered concrete recipe the bullet line, the numbered step
line and the bare link line all occur as such. -/
theorem renderer_escapes_text_not_markup_witness :
    (∃ j, 2 = j + 1 ∧ (escapeL ['a', '*', 'b']).get? j = some '\\')
    ∧ ("• " ++ escape_markdown_v2 "s_1")
        ∈ formatRecipeMarkdownLines ⟨"t!", ["s_1"], ["mix."], "e"⟩ "u" ""
    ∧ (toString (1 + ([] : List String).length) ++ ". " ++ escape_markdown_v2 "mix.")
        ∈ formatRecipeMarkdownLines ⟨"t!", ["s_1"], ["mix."], "e"⟩ "u" ""
    ∧ ("[Оригинал](" ++ "u" ++ ")")
        ∈ formatRecipeMarkdownLines ⟨"t!", ["s_1"], ["mix."], "e"⟩ "u" "" :=
  ⟨renderer_escapes_text_not_markup.1 ['a', '*', 'b'] 2 '*' (by decide) (by decide) (by decide),
   (renderer_escapes_text_not_markup.2.2 ⟨"t!", ["s_1"], ["mix."], "e"⟩ "u" "").2.1 "s_1"
     (by decide),
   (renderer_escapes_text_not_markup.2.2 ⟨"t!", ["s_1"], ["mix."], "e"⟩ "u" "").2.2.1 [] []
     "mix." (by decide),
   (renderer_escapes_text_not_markup.2.2 ⟨"t!", ["s_1"], ["mix."], "e"⟩ "u" "").2.2.2.2.1
     (by decide) (by decide)⟩

/- =============================== Claim C9 =================================== -/

/-- C9 counterexample: rendering the canonical blocks
`⟨"", ["сахар"], ["смешать"], ""⟩` and re-parsing the rendered plain-text form
(identical to the escaped render here, since no reserved characters occur)
does *not* reproduce the blocks: the renderer's steps header
`"Шаги приготовления"` never matches the parser's `[Пп]риготовление` regex, so
the steps are lost, and the separator and header lines bleed into the
ingredients capture. -/
theorem render_parse_roundtrip_cx :
    formatRecipePlain ⟨"", ["сахар"], ["смешать"], ""⟩ "" ""
        = format_recipe_markdown ⟨"", ["сахар"], ["смешать"], ""⟩ "" ""
    ∧ parse_recipe_blocks (formatRecipePlain ⟨"", ["сахар"], ["смешать"], ""⟩ "" "")
        = ⟨"", ["сахар", "", "👨‍🍳 *Шаги приготовления"], [], ""⟩
    ∧ parse_recipe_blocks (formatRecipePlain ⟨"", ["сахар"], ["смешать"], ""⟩ "" "")
        ≠ ⟨"", ["сахар"], ["смешать"], ""⟩ :=
  ⟨by decide, by decide, by decide⟩

/-- C9 amended: parse composed with render is *not* the identity on
already-canonical input: on the canonical blocks
`⟨"", ["сахар"], ["смешать"], ""⟩` the round-trip returns no steps at all
(the renderer's steps header `"Шаги приготовления"` never matches the
parser's `[Пп]риготовление` regex) and does not reproduce the blocks; the
identity does hold for the empty `RecipeBlocks`, whose render is the empty
text. -/
theorem render_parse_roundtrip_amended :
    parse_recipe_blocks (formatRecipePlain ⟨"", [], [], ""⟩ "" "") = ⟨"", [], [], ""⟩
    ∧ (parse_recipe_blocks (formatRecipePlain ⟨"", ["сахар"], ["смешать"], ""⟩ "" "")).steps
        = []
    ∧ parse_recipe_blocks (formatRecipePlain ⟨"", ["сахар"], ["смешать"], ""⟩ "" "")
        ≠ ⟨"", ["сахар"], ["смешать"], ""⟩ :=
  ⟨by decide, by decide, by decide⟩

/- =============================== Claim C10 ================================== -/

/-- C10: Scenario A — the exact input parses to
`ingredients = ["сахар — 200 г"]`, `steps = ["смешать"]`, empty title and
extra. -/
theorem parse_scenario_A :
    parse_recipe_blocks "Ингредиенты:\n- сахар — 200 г\nПриготовление:\n1. смешать"
      = ⟨"", ["сахар — 200 г"], ["смешать"], ""⟩ := by decide

/-- Fidelity anchor (not itself a claim): the embedded parser reproduces the
repository's own expected fixture from `tests/test_parsing.py`
(`test_parse_recipe_blocks_typical`) exactly. -/
theorem parse_matches_repo_fixture :
    parse_recipe_blocks
        ("Рецепт: Оладьи из кабачков\n\nИнгредиенты:\n- кабачок — 1 шт.\n- яйцо — 1 шт.\n"
          ++ "- мука — 100 г\n\nПриготовление:\n1. Натереть кабачок\n"
          ++ "2. Смешать с яйцом и мукой\n3. Обжарить на сковороде\n\nДополнительно:\n"
          ++ "Подавайте со сметаной.")
      = ⟨"Оладьи из кабачков",
         ["кабачок — 1 шт", "яйцо — 1 шт", "мука — 100 г"],
         ["Натереть кабачок", "Смешать с яйцом и мукой", "Обжарить на сковороде"],
         "Подавайте со сметаной."⟩ := by decide

end RecipeBot
